import Mathlib

/-!
Shallow embedding of the AutoApply orchestration pipeline
(src/src/server/agents and the AutoApplyWorkflow), together with
theorems settling the specification claims about it.

Conventions of the embedding:
* TypeScript optional fields (`x?: T`) become `Option T`; `none` stands
  for an absent or undefined field.
* A JavaScript array slot that may hold `undefined` (for example
  `jobs[index]` with an out-of-range index) becomes `Option Job`.
* `Date.now()` is modelled by an explicit `now : Nat` parameter and
  `Math.random()` by a `rand : Nat → ℚ` oracle indexed by the number of
  records queued so far.
* The language-model backend is modelled by an `Option` parameter:
  `none` is demo mode (no API key, `this.llm = null`), and `some r` is a
  configured backend whose parsed JSON reply is `r`.
-/

/-- `src/src/types.ts`: `UserProfile.preferences`. -/
structure Preferences where
  remote : Bool
  minSalary : Nat
deriving Repr, DecidableEq

/-- `src/src/types.ts`: `UserProfile`. -/
structure UserProfile where
  name : String
  title : String
  experience : String
  skills : List String
  resumeText : String
  preferences : Preferences
deriving Repr, DecidableEq

/-- `src/src/types.ts`: `Job`. -/
structure Job where
  id : String
  title : String
  company : String
  location : String
  salary : String
  description : String
  postedAt : String
  tags : List String
  logo : String
deriving Repr, DecidableEq

/-- `src/src/types.ts`: `ApplicationStatus`. -/
inductive ApplicationStatus where
  | PENDING | ANALYZING | MATCHED | REJECTED | APPLYING | APPLIED | FAILED
deriving Repr, DecidableEq

/-- `src/src/types.ts`: `ApplicationRecord`. -/
structure ApplicationRecord where
  id : String
  jobId : String
  jobTitle : String
  company : String
  status : ApplicationStatus
  matchScore : ℚ
  matchReason : Option String
  coverLetter : Option String
  timestamp : Nat
deriving Repr, DecidableEq

/-- Log levels of `AgentLog.type` in `src/src/types.ts`. -/
inductive LogType where
  | info | success | warning | error
deriving Repr, DecidableEq

/-- `src/src/types.ts`: `AgentLog` (the shape of the `logs` entries). -/
structure LogEntry where
  timestamp : Nat
  message : String
  type : LogType
deriving Repr, DecidableEq

/-- Workflow status values shared by the agent states. -/
inductive WorkflowStatus where
  | idle | processing | completed | error
deriving Repr, DecidableEq

/-- `src/src/types.ts`: `SkillGap`. -/
structure SkillGap where
  missing : List String
  strong : List String
  recommended : List String
  analysis : String
deriving Repr, DecidableEq

/-- Opaque stand-in for the DOM `File` value handed to the resume stage.
The pipeline never inspects it; only the external extractor consumes it. -/
structure ResumeFile where
  name : String
deriving Repr, DecidableEq

/-- JavaScript `s || dflt` on an optional string: an absent or empty
string is falsy and selects the default. -/
def jsOrString (s : Option String) (dflt : String) : String :=
  match s with
  | some t => if t = "" then dflt else t
  | none => dflt

/-- JavaScript `n || dflt` on an optional number (embedded as `Nat`):
an absent value or `0` is falsy and selects the default. -/
def jsOrNat (n : Option Nat) (dflt : Nat) : Nat :=
  match n with
  | some k => if k = 0 then dflt else k
  | none => dflt

/-! ## JobAnalyzerAgent (src/src/server/agents/JobAnalyzerAgent.ts) -/

/-- Parsed JSON reply of the backend for `analyzeJobFit`; every field may
be missing, mirroring the `result.x || default` guards in the source. -/
structure FitReply where
  score : Option ℚ
  reason : Option String
  isMatch : Option Bool
  skillGap : Option SkillGap
deriving Repr, DecidableEq

/-- Return shape of `JobAnalyzerAgent.analyzeJobFit`. -/
structure FitAnalysis where
  score : ℚ
  reason : String
  isMatch : Bool
  skillGap : SkillGap
deriving Repr, DecidableEq

/-- `JobAnalyzerAgent.analyzeJobFit` (lines 30-107). `llm = none` is demo
mode (no API key); `llm = some reply` is a configured backend whose JSON
reply parsed to `reply`. -/
def JobAnalyzerAgent.analyzeJobFit (llm : Option FitReply)
    (profile : UserProfile) (_job : Job) : FitAnalysis :=
  match llm with
  | none =>
    { score := 75
      reason := "Demo Mode: API Key missing. Estimated good fit based on basic criteria."
      isMatch := true
      skillGap :=
        { missing := ["Advanced TypeScript"]
          strong := profile.skills.take 3
          recommended := ["System Design", "Cloud Architecture"]
          analysis := "Basic skill gap analysis in demo mode" } }
  | some reply =>
    { score := reply.score.getD 0
      reason := jsOrString reply.reason "Analysis failed"
      isMatch := reply.isMatch.getD false
      skillGap := reply.skillGap.getD
        { missing := [], strong := [], recommended := []
          analysis := "Skill gap analysis not available" } }

/-- `JobAnalyzerAgentState` of JobAnalyzerAgent.ts. -/
structure JobAnalyzerAgentState where
  profile : Option UserProfile
  job : Option Job
  matchScore : Option ℚ
  matchReason : Option String
  isMatch : Option Bool
  skillGap : Option SkillGap
  errors : Option (List String)
deriving Repr, DecidableEq

/-- `JobAnalyzerAgent.process` (lines 109-134). The backend outcome is
`Except.ok none` in demo mode, `Except.ok (some reply)` for a parsed
backend reply, and `Except.error msg` when the backend call or its JSON
parse throws (caught at line 127). -/
def JobAnalyzerAgent.process (llm : Except String (Option FitReply))
    (state : JobAnalyzerAgentState) : JobAnalyzerAgentState :=
  match state.profile, state.job with
  | some profile, some job =>
    match llm with
    | Except.error msg =>
      { state with errors := some ((state.errors.getD []) ++ ["Job analysis failed: " ++ msg]) }
    | Except.ok reply =>
      let analysis := JobAnalyzerAgent.analyzeJobFit reply profile job
      { state with
          matchScore := some analysis.score
          matchReason := some analysis.reason
          isMatch := some analysis.isMatch
          skillGap := some analysis.skillGap
          errors := state.errors.map (List.filter (fun e => e ≠ "Profile and job data required for analysis")) }
  | _, _ =>
    { state with errors := some ((state.errors.getD []) ++ ["Profile and job data required for analysis"]) }

/-! ## CoverLetterAgent (src/unnamed/part_001, second file) -/

/-- The deterministic demo-mode letter of
`CoverLetterAgent.generateCoverLetter` (lines 206-217 of the agent file):
one template literal interpolating profile and job fields. -/
def CoverLetterAgent.generateCoverLetterDemo (profile : UserProfile) (job : Job) : String :=
  "Dear Hiring Manager,\n\nI am writing to express my interest in the "
    ++ job.title
    ++ " position at "
    ++ job.company
    ++ ". With my background in "
    ++ String.intercalate ", " (profile.skills.take 3)
    ++ ", I am excited about the opportunity to contribute to your team.\n\nMy experience as a "
    ++ profile.title
    ++ " has equipped me with the skills needed to excel in this role. I am particularly drawn to "
    ++ job.company
    ++ " because of its innovative approach to "
    ++ jsOrString job.tags.head? "technology"
    ++ ".\n\nI would welcome the opportunity to discuss how my background and skills align with the needs of your team.\n\nBest regards,\n"
    ++ profile.name

/-- `CoverLetterAgentState`. -/
structure CoverLetterAgentState where
  profile : Option UserProfile
  job : Option Job
  coverLetter : Option String
  errors : Option (List String)
deriving Repr, DecidableEq

/-- `CoverLetterAgent.generateCoverLetter`: demo mode (`Except.ok none`)
returns the template; a configured backend returns its raw text, or
throws. -/
def CoverLetterAgent.generateCoverLetter (llm : Except String (Option String))
    (profile : UserProfile) (job : Job) : Except String String :=
  match llm with
  | Except.error msg => Except.error msg
  | Except.ok none => Except.ok (CoverLetterAgent.generateCoverLetterDemo profile job)
  | Except.ok (some txt) => Except.ok txt

/-- `CoverLetterAgent.process`. -/
def CoverLetterAgent.process (llm : Except String (Option String))
    (state : CoverLetterAgentState) : CoverLetterAgentState :=
  match state.profile, state.job with
  | some profile, some job =>
    match CoverLetterAgent.generateCoverLetter llm profile job with
    | Except.error msg =>
      { state with errors := some ((state.errors.getD []) ++ ["Cover letter generation failed: " ++ msg]) }
    | Except.ok letter =>
      { state with
          coverLetter := some letter
          errors := state.errors.map (List.filter (fun e => e ≠ "Profile and job data required for cover letter generation")) }
  | _, _ =>
    { state with errors := some ((state.errors.getD []) ++ ["Profile and job data required for cover letter generation"]) }

/-! ## ResumeParserAgent (src/src/server/agents/ResumeParserAgent.ts) -/

/-- Modelled from the spec: the external text-extraction collaborator
`extractResumeText(file) -> { text, skills }` (spec section 6); its
implementation (`../services/resumeParser.js`) is not part of the
repository sources available here. Failure (for example
`UnsupportedFileType`) is an `Except.error`. -/
structure ParsedResume where
  text : String
  skills : List String
deriving Repr, DecidableEq

/-- Parsed backend reply for the resume-enhancement prompt; every field
optional, mirroring `enhancedData.x || default`. -/
structure EnhancedResume where
  title : Option String
  skills : Option (List String)
  experience : Option String
deriving Repr, DecidableEq

/-- `ResumeParserAgent.parseResume` (lines 27-88): extraction, then demo
fallback or backend enhancement; any internal failure is rethrown as the
fixed message `"Failed to parse resume"` (line 86). -/
def ResumeParserAgent.parseResume
    (extract : ResumeFile → Except String ParsedResume)
    (llm : Except String (Option EnhancedResume))
    (file : ResumeFile) : Except String UserProfile :=
  match extract file with
  | Except.error _ => Except.error "Failed to parse resume"
  | Except.ok parsedData =>
    match llm with
    | Except.error _ => Except.error "Failed to parse resume"
    | Except.ok none =>
      Except.ok
        { name := "Candidate", title := "Professional", experience := "0-2 years"
          skills := parsedData.skills, resumeText := parsedData.text
          preferences := { remote := false, minSalary := 50000 } }
    | Except.ok (some enhanced) =>
      Except.ok
        { name := "Candidate"
          title := jsOrString enhanced.title "Professional"
          experience := jsOrString enhanced.experience "0-2 years"
          skills := enhanced.skills.getD parsedData.skills
          resumeText := parsedData.text
          preferences := { remote := false, minSalary := 50000 } }

/-- `ResumeParserAgentState`. -/
structure ResumeParserAgentState where
  resumeFile : Option ResumeFile
  parsedProfile : Option UserProfile
  errors : Option (List String)
deriving Repr, DecidableEq

/-- `ResumeParserAgent.process` (lines 90-112). -/
def ResumeParserAgent.process
    (extract : ResumeFile → Except String ParsedResume)
    (llm : Except String (Option EnhancedResume))
    (state : ResumeParserAgentState) : ResumeParserAgentState :=
  match state.resumeFile with
  | none =>
    { state with errors := some ((state.errors.getD []) ++ ["No resume file provided"]) }
  | some file =>
    match ResumeParserAgent.parseResume extract llm file with
    | Except.error msg =>
      { state with errors := some ((state.errors.getD []) ++ ["Resume parsing failed: " ++ msg]) }
    | Except.ok profile =>
      { state with
          parsedProfile := some profile
          errors := state.errors.map (List.filter (fun e => e ≠ "No resume file provided")) }

/-! ## ApplicationOrchestratorAgent
(src/src/server/agents/ApplicationOrchestratorAgent.ts) -/

/-- `ApplicationOrchestratorState`. -/
structure OrchestratorState where
  profile : Option UserProfile
  jobs : Option (List Job)
  applications : Option (List ApplicationRecord)
  currentJobIndex : Option Nat
  maxApplications : Option Nat
  status : Option WorkflowStatus
  errors : Option (List String)
  logs : Option (List LogEntry)
deriving Repr, DecidableEq

/-- The private `log` helper (lines 35-46): append one entry to `logs`
(initialising an absent list to `[]`). -/
def orchLog (now : Nat) (state : OrchestratorState) (message : String)
    (type : LogType) : OrchestratorState :=
  { state with logs := some ((state.logs.getD []) ++ [{ timestamp := now, message := message, type := type }]) }

/-- The backend branch of `prioritizeJobs` (line 94):
`result.priorities.map(index => jobs[index])` with no validation; an
out-of-range or negative index produces an `undefined` slot (`none`). -/
def prioritizeJobsLLM (priorities : List Int) (jobs : List Job) : List (Option Job) :=
  priorities.map (fun i => if i < 0 then none else jobs.get? i.toNat)

/-- `ApplicationOrchestratorAgent.prioritizeJobs` (lines 48-96):
demo mode (`llm = none`, line 50) returns the jobs in the original
order; a configured backend whose parsed reply carries the index list
`priorities` returns `prioritizeJobsLLM priorities jobs`. -/
def ApplicationOrchestratorAgent.prioritizeJobs (llm : Option (List Int))
    (_profile : UserProfile) (jobs : List Job) : List (Option Job) :=
  match llm with
  | none => jobs.map some
  | some priorities => prioritizeJobsLLM priorities jobs

/-- The `ApplicationRecord` built at lines 159-167 for the `k`-th queued
job (`k = processedCount`): id `jobId_timestamp_sequence`, status
`PENDING`, match score `75 + Math.random() * 20`. -/
def mkApplication (now : Nat) (rand : Nat → ℚ) (k : Nat) (job : Job) : ApplicationRecord :=
  { id := job.id ++ "_" ++ toString now ++ "_" ++ toString k
    jobId := job.id
    jobTitle := job.title
    company := job.company
    status := ApplicationStatus.PENDING
    matchScore := 75 + rand k * 20
    matchReason := none
    coverLetter := none
    timestamp := now }

/-- The queuing loop of `process` (lines 154-172): walk the prioritized
jobs with counter `k`, breaking once `k` reaches the cap; returns the
records pushed and the log entries appended, in order. -/
def queueLoop (now : Nat) (rand : Nat → ℚ) (maxApps : Nat) :
    List Job → Nat → List ApplicationRecord × List LogEntry
  | [], _ => ([], [])
  | job :: rest, k =>
    if maxApps ≤ k then ([], [])
    else
      let result := queueLoop now rand maxApps rest (k + 1)
      (mkApplication now rand k job :: result.1,
       { timestamp := now
         message := "Queued application for " ++ job.title ++ " at " ++ job.company
         type := LogType.info } :: result.2)

/-- `ApplicationOrchestratorAgent.process` (lines 134-190) on the demo
path (no API key): `prioritizeJobs` returns the input order, nothing in
the body can throw, and the cap is `state.maxApplications || 5`
(line 150) — note `0` is falsy in JavaScript. -/
def ApplicationOrchestratorAgent.processDemo (now : Nat) (rand : Nat → ℚ)
    (state : OrchestratorState) : OrchestratorState :=
  let currentState : OrchestratorState := { state with status := some WorkflowStatus.processing }
  match state.profile, state.jobs with
  | some _, some jobs =>
    if jobs.length = 0 then
      orchLog now { currentState with status := some WorkflowStatus.error }
        "Profile and jobs required for orchestration" LogType.error
    else
      let s1 := orchLog now currentState
        ("Starting application orchestration for " ++ toString jobs.length ++ " jobs") LogType.info
      let prioritizedJobs := jobs
      let s2 := orchLog now { s1 with jobs := some prioritizedJobs }
        "Jobs prioritized by match quality and opportunity" LogType.info
      let maxApps := jsOrNat state.maxApplications 5
      let queued := queueLoop now rand maxApps prioritizedJobs 0
      let s3 := { s2 with logs := some ((s2.logs.getD []) ++ queued.2) }
      let processedCount := queued.1.length
      let s4 := { s3 with
        applications := some queued.1
        status := some WorkflowStatus.completed
        currentJobIndex := some processedCount }
      orchLog now s4
        ("Orchestration completed. " ++ toString processedCount ++ " applications queued.")
        LogType.info
  | _, _ =>
    orchLog now { currentState with status := some WorkflowStatus.error }
      "Profile and jobs required for orchestration" LogType.error

/-! ## AutoApplyWorkflow (src/unnamed/part_001, first file) -/

/-- `AutoApplyWorkflowState`. -/
structure AutoApplyWorkflowState where
  resumeFile : Option ResumeFile
  jobs : Option (List Job)
  maxApplications : Option Nat
  profile : Option UserProfile
  currentJob : Option Job
  applications : Option (List ApplicationRecord)
  matchScore : Option ℚ
  matchReason : Option String
  isMatch : Option Bool
  skillGap : Option SkillGap
  coverLetter : Option String
  currentJobIndex : Option Nat
  status : Option WorkflowStatus
  errors : Option (List String)
  logs : Option (List LogEntry)
deriving Repr, DecidableEq

/-- State threaded through the per-application loop of `run` step 3
(lines 108-147): the already-processed records (mutated in place in the
source, rebuilt here), plus the `skillGap`, `errors` and `logs` slots of
the workflow state. -/
structure LoopAcc where
  apps : List ApplicationRecord
  skillGap : Option SkillGap
  errors : Option (List String)
  logs : List LogEntry
deriving Repr, DecidableEq

/-- One iteration of the per-application loop (lines 109-146), demo
mode: find the referenced job (skip the record untouched when absent),
log, run the job analyzer, write `matchScore`/`matchReason` onto the
record, run the cover-letter agent, write `coverLetter`, log success. -/
def applicationStep (now : Nat) (jobs : Option (List Job)) (profile : UserProfile)
    (acc : LoopAcc) (app : ApplicationRecord) : LoopAcc :=
  match (jobs.getD []).find? (fun j => j.id == app.jobId) with
  | none => { acc with apps := acc.apps ++ [app] }
  | some job =>
    let logs1 := acc.logs ++
      [{ timestamp := now
         message := "Processing application for " ++ job.title ++ " at " ++ job.company
         type := LogType.info }]
    let analysisResult := JobAnalyzerAgent.process (Except.ok none)
      { profile := some profile, job := some job, matchScore := none, matchReason := none
        isMatch := none, skillGap := none, errors := acc.errors }
    let app1 := { app with
      matchScore := analysisResult.matchScore.getD 0
      matchReason := analysisResult.matchReason }
    let coverLetterResult := CoverLetterAgent.process (Except.ok none)
      { profile := some profile, job := some job, coverLetter := none
        errors := analysisResult.errors }
    let app2 := { app1 with coverLetter := coverLetterResult.coverLetter }
    { apps := acc.apps ++ [app2]
      skillGap := analysisResult.skillGap
      errors := coverLetterResult.errors
      logs := logs1 ++
        [{ timestamp := now
           message := "Completed processing for " ++ job.title
           type := LogType.success }] }

/-- `AutoApplyWorkflow.run` (lines 51-172), demo mode (workflow built
with no API key). The body of the `try` block; every stage catches its
own failures, so in demo mode nothing in this body throws and the
`catch` handler (`AutoApplyWorkflow.runCatch`) is never entered. -/
def AutoApplyWorkflow.run (now : Nat) (rand : Nat → ℚ)
    (extract : ResumeFile → Except String ParsedResume)
    (initialState : AutoApplyWorkflowState) : AutoApplyWorkflowState :=
  let state0 : AutoApplyWorkflowState :=
    { initialState with
        status := some (initialState.status.getD WorkflowStatus.idle)
        errors := some (initialState.errors.getD [])
        logs := some (initialState.logs.getD []) }
  let state1 :=
    match state0.resumeFile with
    | none => state0
    | some file =>
      let s := { state0 with logs := some ((state0.logs.getD []) ++
        [({ timestamp := now, message := "Starting resume parsing", type := LogType.info } : LogEntry)]) }
      let parseResult := ResumeParserAgent.process extract (Except.ok none)
        { resumeFile := some file, parsedProfile := none, errors := s.errors }
      { s with
          profile := parseResult.parsedProfile
          errors := parseResult.errors
          logs := some ((s.logs.getD []) ++
            ((parseResult.errors.getD []).map
              (fun e => ({ timestamp := now, message := e, type := LogType.error } : LogEntry)))) }
  let state2 :=
    match state1.jobs with
    | none => state1
    | some jobs =>
      if jobs.length = 0 then state1
      else
        let s := { state1 with logs := some ((state1.logs.getD []) ++
          [({ timestamp := now, message := "Starting application orchestration", type := LogType.info } : LogEntry)]) }
        let orch := ApplicationOrchestratorAgent.processDemo now rand
          { profile := s.profile, jobs := some jobs, applications := none
            currentJobIndex := none, maxApplications := s.maxApplications
            status := s.status, errors := s.errors, logs := s.logs }
        { s with
            jobs := orch.jobs
            applications := orch.applications
            currentJobIndex := orch.currentJobIndex
            status := orch.status
            errors := orch.errors
            logs := orch.logs }
  let state3 :=
    match state2.applications, state2.profile with
    | some apps, some profile =>
      if apps.length = 0 then state2
      else
        let final := apps.foldl (applicationStep now state2.jobs profile)
          { apps := [], skillGap := state2.skillGap, errors := state2.errors
            logs := state2.logs.getD [] }
        { state2 with
            applications := some final.apps
            skillGap := final.skillGap
            errors := final.errors
            logs := some final.logs }
    | _, _ => state2
  { state3 with
      status := some WorkflowStatus.completed
      logs := some ((state3.logs.getD []) ++
        [({ timestamp := now, message := "Auto-apply workflow completed successfully", type := LogType.success } : LogEntry)]) }

/-- The `catch` handler of `AutoApplyWorkflow.run` (lines 158-171),
entered only when an exception escapes the `try` body with message
`errorMessage`, `state` being the workflow state accumulated so far. -/
def AutoApplyWorkflow.runCatch (now : Nat) (state : AutoApplyWorkflowState)
    (errorMessage : String) : AutoApplyWorkflowState :=
  { state with
      status := some WorkflowStatus.error
      errors := some ((state.errors.getD []) ++ ["Workflow failed: " ++ errorMessage])
      logs := some ((state.logs.getD []) ++
        [{ timestamp := now
           message := "Workflow execution failed: " ++ errorMessage
           type := LogType.error }]) }

/-! ## Auxiliary definitions used by the theorems -/

/-- The records `queueLoop` produces for a job list that fits under the
cap, starting at sequence number `k`; the closed form proved in
`queueLoop_fst`. -/
def queuedApps (now : Nat) (rand : Nat → ℚ) : List Job → Nat → List ApplicationRecord
  | [], _ => []
  | job :: rest, k => mkApplication now rand k job :: queuedApps now rand rest (k + 1)

/-- `t` occurs verbatim inside `s`. -/
def ContainsSubstr (s t : String) : Prop := ∃ pre post : String, s = pre ++ t ++ post

/-- A workflow input with every optional field absent. -/
def emptyWorkflowState : AutoApplyWorkflowState :=
  { resumeFile := none, jobs := none, maxApplications := none, profile := none
    currentJob := none, applications := none, matchScore := none, matchReason := none
    isMatch := none, skillGap := none, coverLetter := none, currentJobIndex := none
    status := none, errors := none, logs := none }

/-- Sample job used as concrete input in counterexamples and witnesses. -/
def cJob0 : Job :=
  { id := "job0", title := "Dev", company := "Acme", location := "", salary := ""
    description := "", postedAt := "", tags := [], logo := "" }

/-- Second sample job. -/
def cJob1 : Job :=
  { id := "job1", title := "Ops", company := "Globex", location := "", salary := ""
    description := "", postedAt := "", tags := ["cloud"], logo := "" }

/-- Sample candidate profile. -/
def cProfile : UserProfile :=
  { name := "Alice", title := "Engineer", experience := "5", skills := ["A", "B", "C", "D"]
    resumeText := "", preferences := { remote := true, minSalary := 1 } }

/-- A `Math.random` oracle that always yields `0`. -/
def zeroRand : Nat → ℚ := fun _ => 0

/-- A `Math.random` oracle that always yields `1/2`. -/
def halfRand : Nat → ℚ := fun _ => 1/2

/-- Concrete orchestrator input used to exhibit oracle dependence. -/
def c9state : OrchestratorState :=
  { profile := some cProfile, jobs := some [cJob0], applications := none
    currentJobIndex := none, maxApplications := some 1, status := none
    errors := some [], logs := some [] }

/-! ## Helper lemmas -/

theorem queueLoop_fst (now : Nat) (rand : Nat → ℚ) (m : Nat) :
    ∀ (jobs : List Job) (c : Nat),
      (queueLoop now rand m jobs c).1 = queuedApps now rand (jobs.take (m - c)) c := by
  intro jobs
  induction jobs with
  | nil => intro c; simp [queueLoop, queuedApps]
  | cons job rest ih =>
    intro c
    by_cases h : m ≤ c
    · simp [queueLoop, h, Nat.sub_eq_zero_of_le h, queuedApps]
    · have hc : m - c = (m - (c + 1)) + 1 := by omega
      simp only [queueLoop, if_neg h, hc, List.take_succ_cons, queuedApps]
      rw [ih]

theorem queuedApps_map_jobId (now : Nat) (rand : Nat → ℚ) :
    ∀ (jobs : List Job) (c : Nat),
      (queuedApps now rand jobs c).map (fun a => a.jobId) = jobs.map Job.id := by
  intro jobs
  induction jobs with
  | nil => intro c; simp [queuedApps]
  | cons job rest ih => intro c; simp [queuedApps, mkApplication, ih]

theorem queuedApps_length (now : Nat) (rand : Nat → ℚ) (jobs : List Job) (c : Nat) :
    (queuedApps now rand jobs c).length = jobs.length := by
  have := congrArg List.length (queuedApps_map_jobId now rand jobs c)
  simpa using this

theorem mem_queuedApps (now : Nat) (rand : Nat → ℚ) :
    ∀ (jobs : List Job) (c : Nat) (rec : ApplicationRecord),
      rec ∈ queuedApps now rand jobs c →
      ∃ i job, jobs.get? i = some job ∧ rec = mkApplication now rand (c + i) job := by
  intro jobs
  induction jobs with
  | nil => intro c rec h; simp [queuedApps] at h
  | cons job rest ih =>
    intro c rec h
    simp only [queuedApps, List.mem_cons] at h
    rcases h with h | h
    · exact ⟨0, job, rfl, by simpa using h⟩
    · obtain ⟨i, job2, hget, hrec⟩ := ih (c + 1) rec h
      exact ⟨i + 1, job2, by simpa using hget, by rw [hrec]; congr 1; omega⟩

theorem queueLoop_count (now : Nat) (rand : Nat → ℚ) (m : Nat) (jobs : List Job) :
    (queueLoop now rand m jobs 0).1.length = min m jobs.length := by
  rw [queueLoop_fst]
  simp [queuedApps_length]

theorem processDemo_applications (now : Nat) (rand : Nat → ℚ) (p : UserProfile)
    (jobs : List Job) (a : Option (List ApplicationRecord)) (ci : Option Nat)
    (mx : Option Nat) (stt : Option WorkflowStatus) (er : Option (List String))
    (lg : Option (List LogEntry)) (hne : jobs ≠ []) :
    (ApplicationOrchestratorAgent.processDemo now rand
      ⟨some p, some jobs, a, ci, mx, stt, er, lg⟩).applications
      = some (queuedApps now rand (jobs.take (jsOrNat mx 5)) 0) := by
  simp [ApplicationOrchestratorAgent.processDemo, orchLog, List.length_eq_zero, hne, queueLoop_fst]

theorem processDemo_status (now : Nat) (rand : Nat → ℚ) (p : UserProfile)
    (jobs : List Job) (a : Option (List ApplicationRecord)) (ci : Option Nat)
    (mx : Option Nat) (stt : Option WorkflowStatus) (er : Option (List String))
    (lg : Option (List LogEntry)) (hne : jobs ≠ []) :
    (ApplicationOrchestratorAgent.processDemo now rand
      ⟨some p, some jobs, a, ci, mx, stt, er, lg⟩).status = some WorkflowStatus.completed := by
  simp [ApplicationOrchestratorAgent.processDemo, orchLog, List.length_eq_zero, hne]

theorem processDemo_errors (now : Nat) (rand : Nat → ℚ) (p : UserProfile)
    (jobs : List Job) (a : Option (List ApplicationRecord)) (ci : Option Nat)
    (mx : Option Nat) (stt : Option WorkflowStatus) (er : Option (List String))
    (lg : Option (List LogEntry)) (hne : jobs ≠ []) :
    (ApplicationOrchestratorAgent.processDemo now rand
      ⟨some p, some jobs, a, ci, mx, stt, er, lg⟩).errors = er := by
  simp [ApplicationOrchestratorAgent.processDemo, orchLog, List.length_eq_zero, hne]

theorem processDemo_logs (now : Nat) (rand : Nat → ℚ) (p : UserProfile)
    (jobs : List Job) (a : Option (List ApplicationRecord)) (ci : Option Nat)
    (mx : Option Nat) (stt : Option WorkflowStatus) (er : Option (List String))
    (lg : Option (List LogEntry)) (hne : jobs ≠ []) :
    ∃ l, (ApplicationOrchestratorAgent.processDemo now rand
      ⟨some p, some jobs, a, ci, mx, stt, er, lg⟩).logs
      = some (l ++ [{ timestamp := now
                      message := "Orchestration completed. " ++
                        toString (min (jsOrNat mx 5) jobs.length) ++ " applications queued."
                      type := LogType.info }]) := by
  simp only [ApplicationOrchestratorAgent.processDemo, orchLog, List.length_eq_zero, hne,
    if_neg, queueLoop_count]
  exact ⟨_, rfl⟩

theorem map_range_get {α : Type} (l : List α) :
    (List.range l.length).map (fun i => l.get? i) = l.map some := by
  induction l with
  | nil => simp
  | cons a t ih =>
    simp only [List.length_cons, List.range_succ_eq_map, List.map_cons, List.map_map]
    congr 1

theorem filter_ne_of_not_mem {x : String} {l : List String} (h : x ∉ l) :
    l.filter (fun e => e ≠ x) = l := by
  rw [List.filter_eq_self]
  intro a ha
  simp only [ne_eq, decide_eq_true_eq]
  rintro rfl
  exact h ha

/-! ## Claim C1 — application cap -/

/-- C1 counterexample: with `maxApplications = 0` and one job, the
demo-mode queuing step produces one ApplicationRecord, not
`min(0, 1) = 0`, because `state.maxApplications || 5` (line 150) treats
`0` as falsy and falls back to the default cap of 5. -/
theorem applicationCap_zero_counterexample :
    ((ApplicationOrchestratorAgent.processDemo 0 zeroRand
      { profile := some cProfile, jobs := some [cJob0], applications := none
        currentJobIndex := none, maxApplications := some 0, status := none
        errors := some [], logs := some [] }).applications.getD []).length = 1 ∧
    min 0 [cJob0].length = 0 := by
  exact ⟨rfl, rfl⟩

/-- C1 (amended): for every caller-supplied cap `k ≥ 1` and job list of
length `n`, the queuing step produces exactly `min(k, n)` records, whose
`jobId` fields are the ids of the first `min(k, n)` input jobs in order
(hence each record references a distinct position of the input list);
the run reaches status `completed` and appends a summary log entry
naming the number queued. For `k = 0` the JavaScript falsy default turns
the cap into 5, producing `min(5, n)` records instead of zero. -/
theorem applicationCap_amended (now : Nat) (rand : Nat → ℚ) (p : UserProfile)
    (jobs : List Job) (k : Nat) (a : Option (List ApplicationRecord)) (ci : Option Nat)
    (stt : Option WorkflowStatus) (er : Option (List String)) (lg : Option (List LogEntry))
    (hk : 1 ≤ k) (hne : jobs ≠ []) :
    ((ApplicationOrchestratorAgent.processDemo now rand
        ⟨some p, some jobs, a, ci, some k, stt, er, lg⟩).applications.getD []).length
      = min k jobs.length ∧
    ((ApplicationOrchestratorAgent.processDemo now rand
        ⟨some p, some jobs, a, ci, some k, stt, er, lg⟩).applications.getD []).map
          (fun r => r.jobId) = (jobs.take k).map Job.id ∧
    (ApplicationOrchestratorAgent.processDemo now rand
        ⟨some p, some jobs, a, ci, some k, stt, er, lg⟩).status
      = some WorkflowStatus.completed ∧
    (∃ l, (ApplicationOrchestratorAgent.processDemo now rand
        ⟨some p, some jobs, a, ci, some k, stt, er, lg⟩).logs
      = some (l ++ [{ timestamp := now
                      message := "Orchestration completed. " ++ toString (min k jobs.length) ++
                        " applications queued."
                      type := LogType.info }])) := by
  have hk0 : k ≠ 0 := by omega
  have hjs : jsOrNat (some k) 5 = k := by simp [jsOrNat, hk0]
  refine ⟨?_, ?_, processDemo_status now rand p jobs a ci (some k) stt er lg hne, ?_⟩
  · rw [processDemo_applications now rand p jobs a ci (some k) stt er lg hne]
    simp [queuedApps_length, hjs]
  · rw [processDemo_applications now rand p jobs a ci (some k) stt er lg hne]
    simp [queuedApps_map_jobId, hjs]
  · have h := processDemo_logs now rand p jobs a ci (some k) stt er lg hne
    rw [hjs] at h
    exact h

/-- C1 witness: the amended cap theorem evaluated at `k = 1` over two
jobs. -/
theorem applicationCap_amended_witness :
    ((ApplicationOrchestratorAgent.processDemo 0 zeroRand
        ⟨some cProfile, some [cJob0, cJob1], none, none, some 1, none, some [], some []⟩).applications.getD []).length
      = min 1 [cJob0, cJob1].length ∧
    ((ApplicationOrchestratorAgent.processDemo 0 zeroRand
        ⟨some cProfile, some [cJob0, cJob1], none, none, some 1, none, some [], some []⟩).applications.getD []).map
          (fun r => r.jobId) = ([cJob0, cJob1].take 1).map Job.id ∧
    (ApplicationOrchestratorAgent.processDemo 0 zeroRand
        ⟨some cProfile, some [cJob0, cJob1], none, none, some 1, none, some [], some []⟩).status
      = some WorkflowStatus.completed ∧
    (∃ l, (ApplicationOrchestratorAgent.processDemo 0 zeroRand
        ⟨some cProfile, some [cJob0, cJob1], none, none, some 1, none, some [], some []⟩).logs
      = some (l ++ [{ timestamp := 0
                      message := "Orchestration completed. " ++ toString (min 1 [cJob0, cJob1].length) ++
                        " applications queued."
                      type := LogType.info }])) :=
  applicationCap_amended 0 zeroRand cProfile [cJob0, cJob1] 1 none none none (some []) (some [])
    (by decide) (by decide)

/-! ## Claim C2 — ranking safety -/

/-- C2 counterexample: with a configured backend returning the non
bijective index list `[0, 0]` over two jobs, `prioritizeJobs` returns
the first job twice; the result is neither a permutation of the input
nor the original order, so no fail-safe validation exists in the
code. -/
theorem ranking_no_validation_counterexample :
    ApplicationOrchestratorAgent.prioritizeJobs (some [0, 0]) cProfile [cJob0, cJob1]
      = [some cJob0, some cJob0] ∧
    ¬ (ApplicationOrchestratorAgent.prioritizeJobs (some [0, 0]) cProfile [cJob0, cJob1]).Perm
        ([cJob0, cJob1].map some) ∧
    ApplicationOrchestratorAgent.prioritizeJobs (some [0, 0]) cProfile [cJob0, cJob1]
      ≠ [cJob0, cJob1].map some := by
  refine ⟨rfl, ?_, by decide⟩
  decide

/-- C2 (amended): in demo mode the ranking returns the original order;
with a backend, the stage maps the returned index list over the job list
without any validation, so the output is a permutation of the input
whenever the returned index list happens to be a bijection over the
input positions — and only then. -/
theorem ranking_amended (profile : UserProfile) (jobs : List Job) :
    ApplicationOrchestratorAgent.prioritizeJobs none profile jobs = jobs.map some ∧
    (∀ priorities : List Int,
      priorities.Perm ((List.range jobs.length).map Int.ofNat) →
      (ApplicationOrchestratorAgent.prioritizeJobs (some priorities) profile jobs).Perm
        (jobs.map some)) := by
  refine ⟨rfl, ?_⟩
  intro priorities hperm
  have h2 := hperm.map (fun i : Int => if i < 0 then none else jobs.get? i.toNat)
  refine List.Perm.trans h2 ?_
  rw [List.map_map]
  have h3 : ((List.range jobs.length).map
      ((fun i : Int => if i < 0 then none else jobs.get? i.toNat) ∘ Int.ofNat)) = jobs.map some := by
    rw [← map_range_get jobs]
    apply List.map_congr_left
    intro i _
    simp
  rw [h3]

/-- C2 witness: the amended ranking theorem evaluated at the valid
permutation `[1, 0]` of two jobs. -/
theorem ranking_amended_witness :
    (ApplicationOrchestratorAgent.prioritizeJobs (some [1, 0]) cProfile [cJob0, cJob1]).Perm
      ([cJob0, cJob1].map some) :=
  (ranking_amended cProfile [cJob0, cJob1]).2 [1, 0] (by decide)

/-! ## Claim C3 — append-only errors -/

/-- C3 counterexample: an execution of `JobAnalyzerAgent.process` whose
incoming errors already contain the placeholder string removes that
entry (line 125 filters the whole incoming list), so an error present
before the stage ran is no longer present afterwards. -/
theorem errors_appendOnly_counterexample :
    "Profile and job data required for analysis"
        ∈ (["Profile and job data required for analysis"] : List String) ∧
    (JobAnalyzerAgent.process (Except.ok none)
      { profile := some cProfile, job := some cJob0, matchScore := none, matchReason := none
        isMatch := none, skillGap := none
        errors := some ["Profile and job data required for analysis"] }).errors = some [] := by
  exact ⟨by simp, by rfl⟩

/-- C3 (amended): the errors sequence is append-only except that each
stage, on a successful run, filters every occurrence of its own
placeholder string out of the incoming errors, regardless of which
execution inserted it. Whenever the incoming errors do not contain the
placeholder of the stage, the incoming sequence is a prefix of the
outgoing one, for the job analyzer, the resume parser and the
cover-letter agent; the orchestrator never changes errors at all. -/
theorem errors_appendOnly_amended :
    (∀ (llm : Except String (Option FitReply)) (st : JobAnalyzerAgentState),
      "Profile and job data required for analysis" ∉ st.errors.getD [] →
      ∃ t, (JobAnalyzerAgent.process llm st).errors.getD [] = st.errors.getD [] ++ t) ∧
    (∀ (extract : ResumeFile → Except String ParsedResume)
        (llm : Except String (Option EnhancedResume)) (st : ResumeParserAgentState),
      "No resume file provided" ∉ st.errors.getD [] →
      ∃ t, (ResumeParserAgent.process extract llm st).errors.getD [] = st.errors.getD [] ++ t) ∧
    (∀ (llm : Except String (Option String)) (st : CoverLetterAgentState),
      "Profile and job data required for cover letter generation" ∉ st.errors.getD [] →
      ∃ t, (CoverLetterAgent.process llm st).errors.getD [] = st.errors.getD [] ++ t) ∧
    (∀ (now : Nat) (rand : Nat → ℚ) (st : OrchestratorState),
      (ApplicationOrchestratorAgent.processDemo now rand st).errors = st.errors) := by
  refine ⟨?_, ?_, ?_, ?_⟩
  · rintro llm ⟨p, j, ms, mr, im, sg, er⟩ h
    cases p with
    | none => exact ⟨["Profile and job data required for analysis"], by simp [JobAnalyzerAgent.process]⟩
    | some p =>
      cases j with
      | none => exact ⟨["Profile and job data required for analysis"], by simp [JobAnalyzerAgent.process]⟩
      | some j =>
        cases llm with
        | error msg => exact ⟨["Job analysis failed: " ++ msg], by simp [JobAnalyzerAgent.process]⟩
        | ok reply =>
          refine ⟨[], ?_⟩
          cases er with
          | none => simp [JobAnalyzerAgent.process]
          | some l =>
            simp only [Option.getD_some] at h
            simp [JobAnalyzerAgent.process, filter_ne_of_not_mem h]
            intro a ha heq
            subst heq
            exact h ha
  · rintro extract llm ⟨rf, pp, er⟩ h
    cases rf with
    | none => exact ⟨["No resume file provided"], by simp [ResumeParserAgent.process]⟩
    | some file =>
      cases hp : ResumeParserAgent.parseResume extract llm file with
      | error msg =>
        exact ⟨["Resume parsing failed: " ++ msg], by simp [ResumeParserAgent.process, hp]⟩
      | ok profile =>
        refine ⟨[], ?_⟩
        cases er with
        | none => simp [ResumeParserAgent.process, hp]
        | some l =>
          simp only [Option.getD_some] at h
          simp [ResumeParserAgent.process, hp, filter_ne_of_not_mem h]
          intro a ha heq
          subst heq
          exact h ha
  · rintro llm ⟨p, j, cl, er⟩ h
    cases p with
    | none =>
      exact ⟨["Profile and job data required for cover letter generation"],
        by simp [CoverLetterAgent.process]⟩
    | some p =>
      cases j with
      | none =>
        exact ⟨["Profile and job data required for cover letter generation"],
          by simp [CoverLetterAgent.process]⟩
      | some j =>
        cases hg : CoverLetterAgent.generateCoverLetter llm p j with
        | error msg =>
          exact ⟨["Cover letter generation failed: " ++ msg],
            by simp [CoverLetterAgent.process, hg]⟩
        | ok letter =>
          refine ⟨[], ?_⟩
          cases er with
          | none => simp [CoverLetterAgent.process, hg]
          | some l =>
            simp only [Option.getD_some] at h
            simp [CoverLetterAgent.process, hg, filter_ne_of_not_mem h]
            intro a ha heq
            subst heq
            exact h ha
  · rintro now rand ⟨p, j, a, ci, mx, stt, er, lg⟩
    cases p with
    | none => simp [ApplicationOrchestratorAgent.processDemo, orchLog]
    | some p =>
      cases j with
      | none => simp [ApplicationOrchestratorAgent.processDemo, orchLog]
      | some jobs =>
        by_cases hne : jobs = []
        · subst hne
          simp [ApplicationOrchestratorAgent.processDemo, orchLog]
        · exact processDemo_errors now rand p jobs a ci mx stt er lg hne

/-- C3 witness: the amended append-only theorem evaluated for the job
analyzer at an incoming error list holding one foreign entry. -/
theorem errors_appendOnly_amended_witness :
    ∃ t, (JobAnalyzerAgent.process (Except.ok none)
      { profile := some cProfile, job := some cJob0, matchScore := none, matchReason := none
        isMatch := none, skillGap := none, errors := some ["earlier error"] }).errors.getD []
      = ({ profile := some cProfile, job := some cJob0, matchScore := none, matchReason := none
           isMatch := none, skillGap := none
           errors := some ["earlier error"] } : JobAnalyzerAgentState).errors.getD [] ++ t :=
  errors_appendOnly_amended.1 (Except.ok none)
    { profile := some cProfile, job := some cJob0, matchScore := none, matchReason := none
      isMatch := none, skillGap := none, errors := some ["earlier error"] }
    (by decide)

/-! ## Claim C4 — terminal status -/

/-- C4: in demo mode every stage catches its own failures, so the `try`
body of `run` always terminates with status `completed` — for every
input, every extraction outcome (including a failing extractor) and
every oracle — and the only producer of the terminal status `error` is
the `catch` handler, which models an unhandled exception escaping the
whole run. Hence `completed` is reached exactly when every requested
stage ran to completion (stage-internal errors being non-fatal), and
`error` exactly on an escaped exception. -/
theorem terminal_status_partition :
    (∀ (now : Nat) (rand : Nat → ℚ) (extract : ResumeFile → Except String ParsedResume)
        (st : AutoApplyWorkflowState),
      (AutoApplyWorkflow.run now rand extract st).status = some WorkflowStatus.completed) ∧
    (∀ (now : Nat) (st : AutoApplyWorkflowState) (msg : String),
      (AutoApplyWorkflow.runCatch now st msg).status = some WorkflowStatus.error) :=
  ⟨fun _ _ _ _ => rfl, fun _ _ _ => rfl⟩

/-! ## Claim C5 — missing input -/

/-- C5 counterexample: when the profile is missing, the orchestration
stage leaves the errors sequence unchanged and only appends an
error-level log entry (lines 138-139 call `log` but never touch
`errors`), contradicting the claim that the failure is recorded as an
accumulated error string in the errors sequence. -/
theorem inputMissing_counterexample :
    (ApplicationOrchestratorAgent.processDemo 0 zeroRand
      { profile := none, jobs := some [cJob0], applications := none, currentJobIndex := none
        maxApplications := none, status := none, errors := some [], logs := some [] }).errors
      = some [] ∧
    (ApplicationOrchestratorAgent.processDemo 0 zeroRand
      { profile := none, jobs := some [cJob0], applications := none, currentJobIndex := none
        maxApplications := none, status := none, errors := some [], logs := some [] }).logs
      = some [{ timestamp := 0, message := "Profile and jobs required for orchestration"
                type := LogType.error }] ∧
    (ApplicationOrchestratorAgent.processDemo 0 zeroRand
      { profile := none, jobs := some [cJob0], applications := none, currentJobIndex := none
        maxApplications := none, status := none, errors := some [], logs := some [] }).status
      = some WorkflowStatus.error := ⟨rfl, rfl, rfl⟩

/-- C5 (amended): a missing resume file makes the resume stage append
the fixed error string to `errors` and return no profile; a missing
profile or job list makes the orchestration stage append an error-level
log entry, set its stage status to `error`, and leave `errors` and
`applications` untouched; in both cases the stage produces no result and
the surrounding run continues to status `completed`. -/
theorem inputMissing_amended :
    (∀ (extract : ResumeFile → Except String ParsedResume)
        (llm : Except String (Option EnhancedResume)) (st : ResumeParserAgentState),
      st.resumeFile = none →
      (ResumeParserAgent.process extract llm st).errors
          = some (st.errors.getD [] ++ ["No resume file provided"]) ∧
      (ResumeParserAgent.process extract llm st).parsedProfile = st.parsedProfile) ∧
    (∀ (now : Nat) (rand : Nat → ℚ) (st : OrchestratorState),
      st.profile = none ∨ st.jobs = none ∨ st.jobs = some ([] : List Job) →
      (ApplicationOrchestratorAgent.processDemo now rand st).errors = st.errors ∧
      (ApplicationOrchestratorAgent.processDemo now rand st).applications = st.applications ∧
      (ApplicationOrchestratorAgent.processDemo now rand st).status = some WorkflowStatus.error ∧
      (ApplicationOrchestratorAgent.processDemo now rand st).logs
          = some (st.logs.getD [] ++
              [{ timestamp := now, message := "Profile and jobs required for orchestration"
                 type := LogType.error }])) ∧
    (∀ (now : Nat) (rand : Nat → ℚ) (extract : ResumeFile → Except String ParsedResume)
        (jobs : List Job) (mx : Option Nat),
      (AutoApplyWorkflow.run now rand extract
        { emptyWorkflowState with jobs := some jobs, maxApplications := mx }).status
        = some WorkflowStatus.completed) := by
  refine ⟨?_, ?_, fun _ _ _ _ _ => rfl⟩
  · rintro extract llm ⟨rf, pp, er⟩ h
    cases rf with
    | none => exact ⟨rfl, rfl⟩
    | some file => simp at h
  · rintro now rand ⟨p, j, a, ci, mx, stt, er, lg⟩ h
    rcases h with h | h | h
    · simp only at h
      subst h
      cases j <;> simp [ApplicationOrchestratorAgent.processDemo, orchLog]
    · simp only at h
      subst h
      cases p <;> simp [ApplicationOrchestratorAgent.processDemo, orchLog]
    · simp only at h
      subst h
      cases p <;> simp [ApplicationOrchestratorAgent.processDemo, orchLog]

/-- C5 witness: the amended missing-input theorem evaluated for the
resume stage with no file and empty incoming errors. -/
theorem inputMissing_amended_witness :
    ((ResumeParserAgent.process (fun _ => Except.error "unsupported") (Except.ok none)
        { resumeFile := none, parsedProfile := none, errors := some [] }).errors
      = some ((({ resumeFile := none, parsedProfile := none
                  errors := some [] } : ResumeParserAgentState).errors.getD [])
          ++ ["No resume file provided"]) ∧
     (ResumeParserAgent.process (fun _ => Except.error "unsupported") (Except.ok none)
        { resumeFile := none, parsedProfile := none, errors := some [] }).parsedProfile
      = ({ resumeFile := none, parsedProfile := none
           errors := some [] } : ResumeParserAgentState).parsedProfile) :=
  inputMissing_amended.1 (fun _ => Except.error "unsupported") (Except.ok none)
    { resumeFile := none, parsedProfile := none, errors := some [] } rfl

/-! ## Claim C6 — demo-mode fit analysis -/

/-- C6: with no backend configured, `analyzeJobFit` returns exactly
score `75`, `isMatch = true`, the fixed demo reason string, and a
skill-gap report whose strong list is the first three skills of the
profile; `process` propagates these values onto the agent state. -/
theorem demo_fitAnalysis_deterministic (p : UserProfile) (j : Job) (ms : Option ℚ)
    (mr : Option String) (im : Option Bool) (sg : Option SkillGap)
    (er : Option (List String)) :
    (JobAnalyzerAgent.analyzeJobFit none p j).score = 75 ∧
    (JobAnalyzerAgent.analyzeJobFit none p j).isMatch = true ∧
    (JobAnalyzerAgent.analyzeJobFit none p j).reason
      = "Demo Mode: API Key missing. Estimated good fit based on basic criteria." ∧
    (JobAnalyzerAgent.analyzeJobFit none p j).skillGap
      = { missing := ["Advanced TypeScript"], strong := p.skills.take 3
          recommended := ["System Design", "Cloud Architecture"]
          analysis := "Basic skill gap analysis in demo mode" } ∧
    (JobAnalyzerAgent.process (Except.ok none) ⟨some p, some j, ms, mr, im, sg, er⟩).matchScore
      = some 75 ∧
    (JobAnalyzerAgent.process (Except.ok none) ⟨some p, some j, ms, mr, im, sg, er⟩).isMatch
      = some true ∧
    (JobAnalyzerAgent.process (Except.ok none) ⟨some p, some j, ms, mr, im, sg, er⟩).skillGap
      = some { missing := ["Advanced TypeScript"], strong := p.skills.take 3
               recommended := ["System Design", "Cloud Architecture"]
               analysis := "Basic skill gap analysis in demo mode" } :=
  ⟨rfl, rfl, rfl, rfl, rfl, rfl, rfl⟩

/-! ## Claim C7 — demo-mode cover letter -/

/-- C7: the demo-mode cover letter contains the candidate name, the job
title and the job company verbatim as substrings of the templated
letter. -/
theorem demo_coverLetter_contains_fields (profile : UserProfile) (job : Job) :
    ContainsSubstr (CoverLetterAgent.generateCoverLetterDemo profile job) profile.name ∧
    ContainsSubstr (CoverLetterAgent.generateCoverLetterDemo profile job) job.title ∧
    ContainsSubstr (CoverLetterAgent.generateCoverLetterDemo profile job) job.company := by
  refine ⟨?_, ?_, ?_⟩
  · refine ⟨"Dear Hiring Manager,\n\nI am writing to express my interest in the "
        ++ job.title
        ++ " position at "
        ++ job.company
        ++ ". With my background in "
        ++ String.intercalate ", " (profile.skills.take 3)
        ++ ", I am excited about the opportunity to contribute to your team.\n\nMy experience as a "
        ++ profile.title
        ++ " has equipped me with the skills needed to excel in this role. I am particularly drawn to "
        ++ job.company
        ++ " because of its innovative approach to "
        ++ jsOrString job.tags.head? "technology"
        ++ ".\n\nI would welcome the opportunity to discuss how my background and skills align with the needs of your team.\n\nBest regards,\n",
      "", ?_⟩
    simp [CoverLetterAgent.generateCoverLetterDemo, String.append_assoc]
  · refine ⟨"Dear Hiring Manager,\n\nI am writing to express my interest in the ",
      " position at "
        ++ job.company
        ++ ". With my background in "
        ++ String.intercalate ", " (profile.skills.take 3)
        ++ ", I am excited about the opportunity to contribute to your team.\n\nMy experience as a "
        ++ profile.title
        ++ " has equipped me with the skills needed to excel in this role. I am particularly drawn to "
        ++ job.company
        ++ " because of its innovative approach to "
        ++ jsOrString job.tags.head? "technology"
        ++ ".\n\nI would welcome the opportunity to discuss how my background and skills align with the needs of your team.\n\nBest regards,\n"
        ++ profile.name, ?_⟩
    simp [CoverLetterAgent.generateCoverLetterDemo, String.append_assoc]
  · refine ⟨"Dear Hiring Manager,\n\nI am writing to express my interest in the "
        ++ job.title
        ++ " position at ",
      ". With my background in "
        ++ String.intercalate ", " (profile.skills.take 3)
        ++ ", I am excited about the opportunity to contribute to your team.\n\nMy experience as a "
        ++ profile.title
        ++ " has equipped me with the skills needed to excel in this role. I am particularly drawn to "
        ++ job.company
        ++ " because of its innovative approach to "
        ++ jsOrString job.tags.head? "technology"
        ++ ".\n\nI would welcome the opportunity to discuss how my background and skills align with the needs of your team.\n\nBest regards,\n"
        ++ profile.name, ?_⟩
    simp [CoverLetterAgent.generateCoverLetterDemo, String.append_assoc]

/-! ## Claim C8 — catch handler preserves accumulated state -/

/-- C8: if an exception with message `msg` escapes the run, the `catch`
handler returns a state with status `error`, the message appended to
`errors`, a matching error-level log appended to `logs`, and the
applications, profile and jobs accumulated before the failure preserved
unchanged. -/
theorem runCatch_preserves_state (now : Nat) (st : AutoApplyWorkflowState) (msg : String) :
    (AutoApplyWorkflow.runCatch now st msg).status = some WorkflowStatus.error ∧
    (AutoApplyWorkflow.runCatch now st msg).errors
      = some (st.errors.getD [] ++ ["Workflow failed: " ++ msg]) ∧
    (AutoApplyWorkflow.runCatch now st msg).logs
      = some (st.logs.getD [] ++
          [{ timestamp := now, message := "Workflow execution failed: " ++ msg
             type := LogType.error }]) ∧
    (AutoApplyWorkflow.runCatch now st msg).applications = st.applications ∧
    (AutoApplyWorkflow.runCatch now st msg).profile = st.profile ∧
    (AutoApplyWorkflow.runCatch now st msg).jobs = st.jobs :=
  ⟨rfl, rfl, rfl, rfl, rfl, rfl⟩

/-! ## Claim C9 — shape of freshly queued records -/

/-- C9: every record created by the demo-mode queuing loop has status
`PENDING`, an id of the form `jobId_timestamp_sequence`, and a match
score `75 + rand * 20`, hence in `[75, 95)` whenever the random oracle
stays in `[0, 1)` — assigned at queuing time from the oracle, before any
fit analysis runs; and two executions over the identical input state can
differ in the match score of the queued record when the oracles
differ. -/
theorem queued_record_shape (now : Nat) (rand : Nat → ℚ) (p : UserProfile)
    (jobs : List Job) (ci : Option Nat) (mx : Option Nat) (stt : Option WorkflowStatus)
    (er : Option (List String)) (lg : Option (List LogEntry))
    (hr : ∀ i, 0 ≤ rand i ∧ rand i < 1) :
    (∀ rec ∈ (ApplicationOrchestratorAgent.processDemo now rand
        ⟨some p, some jobs, none, ci, mx, stt, er, lg⟩).applications.getD [],
      rec.status = ApplicationStatus.PENDING ∧
      (∃ i job, jobs.get? i = some job ∧
        rec.id = job.id ++ "_" ++ toString now ++ "_" ++ toString i ∧
        rec.jobId = job.id ∧
        rec.matchScore = 75 + rand i * 20) ∧
      75 ≤ rec.matchScore ∧ rec.matchScore < 95) ∧
    (ApplicationOrchestratorAgent.processDemo 0 zeroRand c9state).applications
      ≠ (ApplicationOrchestratorAgent.processDemo 0 halfRand c9state).applications := by
  constructor
  · intro rec hmem
    by_cases hne : jobs = []
    · subst hne
      simp [ApplicationOrchestratorAgent.processDemo, orchLog] at hmem
    · rw [processDemo_applications now rand p jobs none ci mx stt er lg hne] at hmem
      simp only [Option.getD_some] at hmem
      obtain ⟨i, job, hget, hrec⟩ := mem_queuedApps now rand _ 0 rec hmem
      have hlt : i < (jobs.take (jsOrNat mx 5)).length := by
        rcases List.get?_eq_some.mp hget with ⟨h, _⟩
        exact h
      have hi : jobs.get? i = some job := by
        rw [← hget, List.get?_take]
        simp at hlt
        omega
      obtain ⟨h0, h1⟩ := hr i
      have hms : rec.matchScore = 75 + rand i * 20 := by
        rw [hrec]; simp [mkApplication]
      refine ⟨by rw [hrec]; rfl,
        ⟨i, job, hi, by rw [hrec]; simp [mkApplication], by rw [hrec]; rfl, hms⟩, ?_, ?_⟩
      · rw [hms]
        nlinarith
      · rw [hms]
        nlinarith
  · have e1 : (ApplicationOrchestratorAgent.processDemo 0 zeroRand c9state).applications
        = some [mkApplication 0 zeroRand 0 cJob0] := by
      simp only [c9state]
      rw [processDemo_applications 0 zeroRand cProfile [cJob0] none none (some 1) none
        (some []) (some []) (by decide)]
      simp [jsOrNat, queuedApps]
    have e2 : (ApplicationOrchestratorAgent.processDemo 0 halfRand c9state).applications
        = some [mkApplication 0 halfRand 0 cJob0] := by
      simp only [c9state]
      rw [processDemo_applications 0 halfRand cProfile [cJob0] none none (some 1) none
        (some []) (some []) (by decide)]
      simp [jsOrNat, queuedApps]
    rw [e1, e2]
    intro h
    have h2 : mkApplication 0 zeroRand 0 cJob0 = mkApplication 0 halfRand 0 cJob0 := by
      simpa using h
    have h3 := congrArg ApplicationRecord.matchScore h2
    simp only [mkApplication, zeroRand, halfRand] at h3
    norm_num at h3

/-- C9 witness: the record-shape theorem evaluated at a one-job input
with the zero oracle, specialised to the single queued record. -/
theorem queued_record_shape_witness :
    ((mkApplication 7 zeroRand 0 cJob0).status = ApplicationStatus.PENDING ∧
     (∃ i job, [cJob0].get? i = some job ∧
       (mkApplication 7 zeroRand 0 cJob0).id = job.id ++ "_" ++ toString 7 ++ "_" ++ toString i ∧
       (mkApplication 7 zeroRand 0 cJob0).jobId = job.id ∧
       (mkApplication 7 zeroRand 0 cJob0).matchScore = 75 + zeroRand i * 20) ∧
     75 ≤ (mkApplication 7 zeroRand 0 cJob0).matchScore ∧
     (mkApplication 7 zeroRand 0 cJob0).matchScore < 95) ∧
    (ApplicationOrchestratorAgent.processDemo 0 zeroRand c9state).applications
      ≠ (ApplicationOrchestratorAgent.processDemo 0 halfRand c9state).applications :=
  ⟨(queued_record_shape 7 zeroRand cProfile [cJob0] none (some 1) none (some []) (some [])
      (fun i => by simp [zeroRand])).1 (mkApplication 7 zeroRand 0 cJob0)
      (by
        rw [processDemo_applications 7 zeroRand cProfile [cJob0] none none (some 1) none
          (some []) (some []) (by decide)]
        simp [queuedApps, jsOrNat]),
   (queued_record_shape 7 zeroRand cProfile [cJob0] none (some 1) none (some []) (some [])
      (fun i => by simp [zeroRand])).2⟩

/-! ## Claim C10 — run with no inputs -/

/-- C10: a run invoked with no resume file, jobs absent or empty, and no
applications supplied terminates with status `completed`, leaves the
applications field undefined (`none`, not an empty list), leaves
`errors` at its initial value (empty by default) and appends exactly the
final success log entry. -/
theorem run_no_input_completed (now : Nat) (rand : Nat → ℚ)
    (extract : ResumeFile → Except String ParsedResume) (input : AutoApplyWorkflowState)
    (h1 : input.resumeFile = none) (h2 : input.jobs = none ∨ input.jobs = some [])
    (h3 : input.applications = none) :
    (AutoApplyWorkflow.run now rand extract input).status = some WorkflowStatus.completed ∧
    (AutoApplyWorkflow.run now rand extract input).applications = none ∧
    (AutoApplyWorkflow.run now rand extract input).errors = some (input.errors.getD []) ∧
    (AutoApplyWorkflow.run now rand extract input).logs
      = some ((input.logs.getD []) ++
          [{ timestamp := now, message := "Auto-apply workflow completed successfully"
             type := LogType.success }]) := by
  obtain ⟨rf, jb, mx, pf, cj, ap, ms, mr, im, sg, cl, ci, stt, er, lg⟩ := input
  simp only at h1 h2 h3
  subst h1 h3
  rcases h2 with h2 | h2 <;> subst h2 <;> cases pf <;>
    simp [AutoApplyWorkflow.run]

/-- C10 witness: the no-input theorem evaluated at the all-absent
workflow input. -/
theorem run_no_input_completed_witness :
    (AutoApplyWorkflow.run 3 zeroRand (fun _ => Except.error "unsupported")
        emptyWorkflowState).status = some WorkflowStatus.completed ∧
    (AutoApplyWorkflow.run 3 zeroRand (fun _ => Except.error "unsupported")
        emptyWorkflowState).applications = none ∧
    (AutoApplyWorkflow.run 3 zeroRand (fun _ => Except.error "unsupported")
        emptyWorkflowState).errors = some (emptyWorkflowState.errors.getD []) ∧
    (AutoApplyWorkflow.run 3 zeroRand (fun _ => Except.error "unsupported")
        emptyWorkflowState).logs
      = some ((emptyWorkflowState.logs.getD []) ++
          [{ timestamp := 3, message := "Auto-apply workflow completed successfully"
             type := LogType.success }]) :=
  run_no_input_completed 3 zeroRand (fun _ => Except.error "unsupported") emptyWorkflowState
    rfl (Or.inl rfl) rfl
